import Mathlib

/-!
Verification of the `ffio.py` session layer of pyFFmpeg.

The Python source wraps a native gateway library (`libinterfaceAPI.so`,
whose C implementation is not part of the Python source tree).  The
Python-side data and control flow are embedded faithfully below; the
gateway's observable behaviour (the value each `api_*` call returns) is
passed in as an explicit parameter, and the gateway's effect on the
native struct's `frame_seq` counter — which the Python layer only reads —
is modelled from the spec where a claim depends on it.

Naming: the Python class `FFIO` is embedded as `FFIOSession` and the C
struct `CFFIO` as `CFfio` (the source names end in `IO`, which collides
with Lean library namespaces); the C API entry points `api_newFFIO`,
`api_initFFIO`, `api_finalizeFFIO`, `api_deleteFFIO` are embedded as
`api_initFfio`, `api_finalizeFfio`, `api_deleteFfio`.  All field and
method names follow the source.
-/

namespace PyFFmpeg

/-- Embeds the ctypes structure `CCodecParams` (ffio.py lines 29-54):
six integer fields and five fixed-length string fields.  A freshly
constructed ctypes structure is zero-initialised, which the default
field values reproduce. -/
structure CCodecParams where
  width : Int := 0
  height : Int := 0
  bitrate : Int := 0
  fps : Int := 0
  gop : Int := 0
  b_frames : Int := 0
  profile : String := ""
  preset : String := ""
  tune : String := ""
  pix_fmt : String := ""
  format : String := ""
deriving DecidableEq, Repr

/-- Embeds the ctypes structure `CFFIO` (ffio.py lines 13-26): the native
struct whose fields the Python layer reads through `_c_ffio_ptr.contents`. -/
structure CFfio where
  ffio_state : Int
  ffio_mode : Int := 0
  frame_seq : Int
  hw_enabled : Bool := false
  shm_enabled : Bool := false
  shm_fd : Int := 0
  shm_size : Int := 0
  video_stream_index : Int := 0
  image_width : Int
  image_height : Int
  image_byte_size : Int := 0
deriving DecidableEq, Repr

/-- Lifecycle of the native handle allocated by `api_newFFIO`.
Modelled from the spec: the handle is a single-owner resource, acquired
at construction and released by `api_deleteFFIO`. -/
inductive HandleState where
  | allocated
  | freed
deriving DecidableEq, Repr

/-- The Python object `FFIO` (class body, ffio.py lines 86-96).
`width` and `height` are `Option Int` because the class-level
annotations at lines 93-94 declare but do not assign them: an instance
attribute exists (`some v`) only once some method has assigned it, and
reading it while `none` raises `AttributeError` in Python.
`handle` and `double_free` track the native handle's lifecycle,
modelled from the spec (the C side is not in the Python source). -/
structure FFIOSession where
  target_url : String
  mode : Int
  frame_seq_py : Int
  shm_enabled : Bool
  width : Option Int
  height : Option Int
  codec_params : CCodecParams
  cffio : CFfio
  handle : HandleState
  double_free : Bool
deriving DecidableEq, Repr

/-- `self._c_ffio_ptr.contents.frame_seq` read through the `frame_seq_c`
property (ffio.py lines 143-145). -/
def frame_seq_c (s : FFIOSession) : Int :=
  s.cffio.frame_seq

/-- The `ffio_state` property (ffio.py lines 138-141): `True` iff the
native state is 1 or 2. -/
def ffio_state (s : FFIOSession) : Bool :=
  s.cffio.ffio_state == 1 || s.cffio.ffio_state == 2

/-- Advances the native struct's frame counter by one. -/
def incNativeSeq (s : FFIOSession) : FFIOSession :=
  { s with cffio := { s.cffio with frame_seq := s.cffio.frame_seq + 1 } }

/-- The gateway result of `api_decodeOneFrame` as seen by Python: a
`py_object` that the wrapper inspects with `type(ret)`, either frame
bytes or an integer code. -/
inductive DecodeRet where
  | bytes (data : List Nat)
  | int (code : Int)
deriving DecidableEq, Repr

/-- Call to `c_lib.api_decodeOneFrame` (the C body is external): the
returned value `ret` is an oracle parameter.  Modelled from the spec:
the gateway's native `frame_seq` counts frames processed so far, so it
advances by one exactly when a frame's bytes are produced and is
unchanged on a sentinel or error code. -/
def api_decodeOneFrame (s : FFIOSession) (ret : DecodeRet) : DecodeRet × FFIOSession :=
  (ret, match ret with
        | .bytes _ => incNativeSeq s
        | .int _ => s)

/-- Call to `c_lib.api_decodeOneFrameToShm` (external): the boolean
result is an oracle parameter.  Modelled from the spec: on a successful
pull the gateway's native frame counter advances by one. -/
def api_decodeOneFrameToShm (s : FFIOSession) (_offset : Int) (ret : Bool) :
    Bool × FFIOSession :=
  (ret, if ret then incNativeSeq s else s)

/-- Call to `c_lib.api_encodeOneFrame` (external): the integer result
code is an oracle parameter.  Modelled from the spec: on a successful
push (code 0) the gateway's native frame counter advances by one. -/
def api_encodeOneFrame (s : FFIOSession) (code : Int) : Int × FFIOSession :=
  (code, if code = 0 then incNativeSeq s else s)

/-- Call to `c_lib.api_encodeOneFrameFromShm` (external): the boolean
result is an oracle parameter.  Modelled from the spec: on a successful
push the gateway's native frame counter advances by one. -/
def api_encodeOneFrameFromShm (s : FFIOSession) (_offset : Int) (ret : Bool) :
    Bool × FFIOSession :=
  (ret, if ret then incNativeSeq s else s)

/-- Call to `c_lib.api_finalizeFFIO` (external).  Modelled from the
spec: flushes pending native buffers; no Python-visible field changes. -/
def api_finalizeFfio (s : FFIOSession) : FFIOSession :=
  s

/-- Call to `c_lib.api_deleteFFIO` (external).  Modelled from the spec:
releases the single-owner native handle; the spec requires it to be
released exactly once, so releasing an already-freed handle is recorded
as a double free. -/
def api_deleteFfio (s : FFIOSession) : FFIOSession :=
  match s.handle with
  | .allocated => { s with handle := .freed }
  | .freed => { s with double_free := true }

/-- Embeds `FFIO.__init__` (ffio.py lines 98-136).  The parameter `gw`
stands for the contents of the native struct after `api_newFFIO` and
`api_initFFIO` have run (their C bodies are external); the handle they
allocate starts `allocated`.  On native state 1 the instance records
the negotiated geometry; otherwise it deletes the native handle and —
exactly as in the source — never assigns `width` or `height`. -/
def FFIOSession.init (target_url : String) (mode : Int) (_hw_enabled : Bool)
    (shm_name : Option String) (_shm_size : Int) (_shm_offset : Int)
    (codec_params : Option CCodecParams) (gw : CFfio) : FFIOSession :=
  let s0 : FFIOSession :=
    { target_url := target_url
      mode := mode
      frame_seq_py := 0
      shm_enabled := shm_name.isSome
      width := none
      height := none
      codec_params := codec_params.getD {}
      cffio := gw
      handle := .allocated
      double_free := false }
  if gw.ffio_state = 1 then
    { s0 with width := some gw.image_width, height := some gw.image_height }
  else
    api_deleteFfio s0

/-- Splits a list into consecutive chunks of length `n` (the final chunk
may be shorter); models the row/pixel grouping performed by
`np.reshape`. -/
def chunkList : Nat → List α → List (List α)
  | _, [] => []
  | 0, l => [l]
  | n + 1, x :: xs => (x :: List.take n xs) :: chunkList (n + 1) (List.drop n xs)
termination_by _ l => l.length
decreasing_by simp [List.length_drop]; omega

/-- Models `np.reshape(np_buffer, (self.height, self.width, 3))`
(ffio.py lines 156-157, 163-164) on a flat byte buffer whose length is
`height * width * 3`: bytes grouped into 3-byte pixels, pixels grouped
into rows of `width`. -/
def np_reshape (_height : Int) (width : Int) (data : List Nat) :
    List (List (List Nat)) :=
  chunkList width.toNat (chunkList 3 data)

/-- One pixel of `cv2.cvtColor(..., cv2.COLOR_RGB2BGR)`: channels 0 and
2 swap. -/
def rgbPixelToBgr : List Nat → List Nat
  | [r, g, b] => [b, g, r]
  | p => p

/-- Models `cv2.cvtColor(np_frame, cv2.COLOR_RGB2BGR)` (ffio.py
line 165) on a height x width x 3 array. -/
def cvtColorRGB2BGR (frame : List (List (List Nat))) : List (List (List Nat)) :=
  frame.map (fun row => row.map rgbPixelToBgr)

/-- The external image-compression and text-encoding collaborators used
on the base64 path (ffio.py lines 166-167): `cv2.imencode('.jpg', ...)`
and `base64.b64encode(...).decode()`.  Their internals are outside the
session layer's scope; theorems quantify over them. -/
structure ExtLibs where
  imencode_jpg : List (List (List Nat)) → List Nat
  b64encode : List Nat → String

/-- The value `decode_one_frame` hands back to the caller, one
constructor per Python return site: raw bytes (`image_format=None`),
the reshaped numpy array, `Image.frombytes("RGB", (width, height), ret)`,
the base64 string, or an integer code. -/
inductive DecodeResult where
  | raw (data : List Nat)
  | numpy (frame : List (List (List Nat)))
  | image (w h : Int) (data : List Nat)
  | b64 (text : String)
  | code (c : Int)
deriving DecidableEq, Repr

deriving instance DecidableEq for Except

/-- Outcome of one `decode_one_frame` call.  `result` is `.error` when
the Python body would raise `AttributeError` (reading `self.width` or
`self.height` when the attribute was never assigned); `.ok none` is
Python's implicit `None` fall-through.  `gatewayCalled` records whether
`c_lib.api_decodeOneFrame` ran. -/
structure DecodeStep where
  result : Except String (Option DecodeResult)
  session : FFIOSession
  gatewayCalled : Bool
deriving DecidableEq, Repr

/-- Embeds `FFIO.decode_one_frame` (ffio.py lines 147-181).  The body
calls the gateway unconditionally before any check; on frame bytes it
increments `frame_seq_py` and dispatches on `image_format`; on an
integer code it maps -5 and -4 through and every other code to 1; a
format string matching no branch falls off the `if` chain and returns
Python `None`. -/
def FFIOSession.decode_one_frame (ext : ExtLibs) (s : FFIOSession)
    (image_format : Option String) (gwRet : DecodeRet) : DecodeStep :=
  let p := api_decodeOneFrame s gwRet
  match p.1 with
  | .bytes data =>
    let s1 := { p.2 with frame_seq_py := p.2.frame_seq_py + 1 }
    match image_format with
    | none => ⟨.ok (some (.raw data)), s1, true⟩
    | some f =>
      if f = "numpy" then
        match s1.height, s1.width with
        | some h, some w => ⟨.ok (some (.numpy (np_reshape h w data))), s1, true⟩
        | _, _ => ⟨.error "AttributeError", s1, true⟩
      else if f = "Image" then
        match s1.width, s1.height with
        | some w, some h => ⟨.ok (some (.image w h data)), s1, true⟩
        | _, _ => ⟨.error "AttributeError", s1, true⟩
      else if f = "base64" then
        match s1.height, s1.width with
        | some h, some w =>
          ⟨.ok (some (.b64 (ext.b64encode
              (ext.imencode_jpg (cvtColorRGB2BGR (np_reshape h w data)))))),
            s1, true⟩
        | _, _ => ⟨.error "AttributeError", s1, true⟩
      else
        ⟨.ok none, s1, true⟩
  | .int c =>
    if c = -5 then ⟨.ok (some (.code (-5))), p.2, true⟩
    else if c = -4 then ⟨.ok (some (.code (-4))), p.2, true⟩
    else ⟨.ok (some (.code 1)), p.2, true⟩

/-- Embeds `FFIO.decode_one_frame_to_shm` (ffio.py lines 183-185): a
direct pass-through to the gateway; `frame_seq_py` is not touched. -/
def FFIOSession.decode_one_frame_to_shm (s : FFIOSession) (offset : Int)
    (gwRet : Bool) : Bool × FFIOSession :=
  api_decodeOneFrameToShm s offset gwRet

/-- The `rgb_image` argument of `encode_one_frame` as the Python body
classifies it with `type(rgb_image)`: `bytes`, an `np.ndarray` (carried
here already serialized, as `rgb_image.tobytes()` would produce), a PIL
image, or anything else. -/
inductive RgbInput where
  | bytes (data : List Nat)
  | ndarray (data : List Nat)
  | image
  | other
deriving DecidableEq, Repr

/-- Outcome of one `encode_one_frame` call. -/
structure EncodeStep where
  result : Bool
  session : FFIOSession
  gatewayCalled : Bool
deriving DecidableEq, Repr

/-- The `bytes` branch of `encode_one_frame` (ffio.py lines 189-194):
push to the gateway; on code 0 increment `frame_seq_py` and return
`True`, otherwise return `False`. -/
def encodeBytesBranch (s : FFIOSession) (gwCode : Int) : EncodeStep :=
  let p := api_encodeOneFrame s gwCode
  if p.1 = 0 then
    ⟨true, { p.2 with frame_seq_py := p.2.frame_seq_py + 1 }, true⟩
  else
    ⟨false, p.2, true⟩

/-- Embeds `FFIO.encode_one_frame` (ffio.py lines 187-200).  A `bytes`
input goes straight to the gateway (no size check anywhere in the
body); an `ndarray` is serialized with `tobytes()` and re-enters the
`bytes` branch (the source's recursive call, inlined here since the
re-entry target is determined); a PIL image or any other type returns
`False` without calling the gateway. -/
def FFIOSession.encode_one_frame (s : FFIOSession) (rgb_image : RgbInput)
    (gwCode : Int) : EncodeStep :=
  match rgb_image with
  | .bytes _ => encodeBytesBranch s gwCode
  | .ndarray _ => encodeBytesBranch s gwCode
  | .image => ⟨false, s, false⟩
  | .other => ⟨false, s, false⟩

/-- Embeds `FFIO.encode_one_frame_from_shm` (ffio.py lines 202-203): a
direct pass-through to the gateway; `frame_seq_py` is not touched. -/
def FFIOSession.encode_one_frame_from_shm (s : FFIOSession) (offset : Int)
    (gwRet : Bool) : Bool × FFIOSession :=
  api_encodeOneFrameFromShm s offset gwRet

/-- Embeds `FFIO.release_memory` (ffio.py lines 205-211): native
finalize then delete — unconditionally, with no guard against a repeat
call — then zero `width`, `height` and `frame_seq_py` (assigning the
attributes even if they were never set). -/
def FFIOSession.release_memory (s : FFIOSession) : FFIOSession :=
  let s1 := api_finalizeFfio s
  let s2 := api_deleteFfio s1
  { s2 with width := some 0, height := some 0, frame_seq_py := 0 }

/-- Folds `decode_one_frame` over a list of gateway frame results, each
call successful (frame bytes), keeping the session. -/
def decode_iter (ext : ExtLibs) (image_format : Option String)
    (frames : List (List Nat)) (s : FFIOSession) : FFIOSession :=
  frames.foldl
    (fun st d => (FFIOSession.decode_one_frame ext st image_format (.bytes d)).session) s

/-- Folds `encode_one_frame` over a list of byte frames, each call
successful (gateway code 0), keeping the session. -/
def encode_iter (frames : List (List Nat)) (s : FFIOSession) : FFIOSession :=
  frames.foldl (fun st d => (FFIOSession.encode_one_frame st (.bytes d) 0).session) s

/-- Concrete external collaborators for evaluating examples: a trivial
compressor and text encoder. -/
def extLibs0 : ExtLibs :=
  ⟨fun _ => [], fun _ => "b64"⟩

/-- Native struct contents after a successful open of a 2x2 stream. -/
def gwReady : CFfio :=
  { ffio_state := 1, frame_seq := 0, image_width := 2, image_height := 2 }

/-- Native struct contents after a failed open. -/
def gwFailed : CFfio :=
  { ffio_state := 0, frame_seq := 0, image_width := 0, image_height := 0 }

/-- A session whose initialization succeeded (decode mode, no shm). -/
def readySession : FFIOSession :=
  FFIOSession.init "rtmp://demo/stream" 0 false none 0 0 none gwReady

/-- A session whose initialization failed. -/
def failedSession : FFIOSession :=
  FFIOSession.init "rtmp://demo/stream" 0 false none 0 0 none gwFailed

/-- A successfully initialized session with a shared-memory channel. -/
def shmSession : FFIOSession :=
  FFIOSession.init "rtmp://demo/stream" 0 false (some "ffio_shm") 12 0 none gwReady

/-- A 2x2 RGB frame, 12 bytes. -/
def frame12 : List Nat :=
  [10, 20, 30, 40, 50, 60, 70, 80, 90, 100, 110, 120]

/-- Joining the chunks of a list restores the list, for every chunk
size (`np.reshape` grouping loses no bytes and reorders none). -/
theorem chunkList_flatten (n : Nat) (l : List α) : (chunkList n l).flatten = l :=
  match n, l with
  | _, [] => by simp [chunkList]
  | 0, _ :: _ => by simp [chunkList]
  | n + 1, x :: xs => by
    have ih := chunkList_flatten (n + 1) (List.drop n xs)
    simp [chunkList, ih]
termination_by l.length
decreasing_by simp [List.length_drop]; omega

/-- C3: a gateway integer code from `decode_one_frame` is surfaced as
-5 exactly when the gateway reports -5 (end of stream), as -4 exactly
when it reports -4 (packet mismatch), and as the generic failure code 1
for every other integer code, so the three terminal conditions are
distinguishable by the caller. -/
theorem decode_sentinel_codes (ext : ExtLibs) (s : FFIOSession)
    (image_format : Option String) (c : Int) :
    (FFIOSession.decode_one_frame ext s image_format (.int c)).result
      = .ok (some (.code (if c = -5 then -5 else if c = -4 then -4 else 1)))
    ∧ ((FFIOSession.decode_one_frame ext s image_format (.int c)).result
        = .ok (some (.code (-5))) ↔ c = -5)
    ∧ ((FFIOSession.decode_one_frame ext s image_format (.int c)).result
        = .ok (some (.code (-4))) ↔ c = -4) := by
  unfold FFIOSession.decode_one_frame api_decodeOneFrame
  by_cases h5 : c = -5 <;> by_cases h4 : c = -4 <;> simp_all

/-- C4: `encode_one_frame` on a `bytes` input returns true exactly when
the gateway code is 0, and `frame_seq_py` advances by one on code 0 and
is unchanged on every other code. -/
theorem encode_counter_and_result (s : FFIOSession) (data : List Nat) (gwCode : Int) :
    (FFIOSession.encode_one_frame s (.bytes data) gwCode).result = decide (gwCode = 0)
    ∧ (FFIOSession.encode_one_frame s (.bytes data) gwCode).session.frame_seq_py
        = s.frame_seq_py + (if gwCode = 0 then 1 else 0)
    ∧ (gwCode ≠ 0 →
        (FFIOSession.encode_one_frame s (.bytes data) gwCode).session = s) := by
  unfold FFIOSession.encode_one_frame encodeBytesBranch api_encodeOneFrame incNativeSeq
  by_cases h : gwCode = 0 <;> simp [h]

/-- C7: after `release_memory`, `width`, `height` and `frame_seq_py`
are zero, and `target_url`, `mode`, `shm_enabled` and `codec_params`
are untouched. -/
theorem release_memory_resets_fields (s : FFIOSession) :
    (FFIOSession.release_memory s).width = some 0
    ∧ (FFIOSession.release_memory s).height = some 0
    ∧ (FFIOSession.release_memory s).frame_seq_py = 0
    ∧ (FFIOSession.release_memory s).target_url = s.target_url
    ∧ (FFIOSession.release_memory s).mode = s.mode
    ∧ (FFIOSession.release_memory s).shm_enabled = s.shm_enabled
    ∧ (FFIOSession.release_memory s).codec_params = s.codec_params := by
  unfold FFIOSession.release_memory api_finalizeFfio api_deleteFfio
  cases h : s.handle <;> simp [h]

/-- C10: when the gateway returns frame bytes but `image_format` is a
string matching none of `numpy`, `Image`, `base64` (and is not `None`),
`frame_seq_py` still advances by one and the call falls through to
Python's implicit `None`. -/
theorem unknown_format_counts_frame (ext : ExtLibs) (s : FFIOSession)
    (data : List Nat) (f : String)
    (hf : ¬ (f = "numpy" ∨ f = "Image" ∨ f = "base64")) :
    (FFIOSession.decode_one_frame ext s (some f) (.bytes data)).result = .ok none
    ∧ (FFIOSession.decode_one_frame ext s (some f) (.bytes data)).session.frame_seq_py
        = s.frame_seq_py + 1 := by
  push_neg at hf
  obtain ⟨h1, h2, h3⟩ := hf
  unfold FFIOSession.decode_one_frame api_decodeOneFrame incNativeSeq
  simp [h1, h2, h3]

/-- Witness for C10 at the unknown format string `jpg`. -/
theorem unknown_format_counts_frame_witness :
    (FFIOSession.decode_one_frame extLibs0 readySession (some "jpg") (.bytes frame12)).result
      = .ok none
    ∧ (FFIOSession.decode_one_frame extLibs0 readySession (some "jpg")
        (.bytes frame12)).session.frame_seq_py
      = readySession.frame_seq_py + 1 :=
  unknown_format_counts_frame extLibs0 readySession frame12 "jpg" (by decide)

/-- C9: with `image_format='base64'` a decoded frame is presented as
the text encoding of the compressed image of the RGB-to-BGR-reordered
pixel array; with `None`, `numpy` or `Image` the bytes are presented
unreordered (the numpy reshape flattens back to the original bytes,
and the raw and `Image` paths carry the bytes as-is). -/
theorem base64_path_reorder (ext : ExtLibs) (s : FFIOSession) (w h : Int)
    (data : List Nat) (hw : s.width = some w) (hh : s.height = some h) :
    (FFIOSession.decode_one_frame ext s (some "base64") (.bytes data)).result
      = .ok (some (.b64 (ext.b64encode
          (ext.imencode_jpg (cvtColorRGB2BGR (np_reshape h w data))))))
    ∧ (FFIOSession.decode_one_frame ext s none (.bytes data)).result
      = .ok (some (.raw data))
    ∧ (FFIOSession.decode_one_frame ext s (some "numpy") (.bytes data)).result
      = .ok (some (.numpy (np_reshape h w data)))
    ∧ (FFIOSession.decode_one_frame ext s (some "Image") (.bytes data)).result
      = .ok (some (.image w h data))
    ∧ (np_reshape h w data).flatten.flatten = data := by
  unfold FFIOSession.decode_one_frame api_decodeOneFrame incNativeSeq
  simp [hw, hh, np_reshape, chunkList_flatten]

/-- Witness for C9 on a concrete 2x2-frame session. -/
theorem base64_path_reorder_witness :
    (FFIOSession.decode_one_frame extLibs0 readySession (some "base64") (.bytes frame12)).result
      = .ok (some (.b64 (extLibs0.b64encode
          (extLibs0.imencode_jpg (cvtColorRGB2BGR (np_reshape 2 2 frame12))))))
    ∧ (FFIOSession.decode_one_frame extLibs0 readySession none (.bytes frame12)).result
      = .ok (some (.raw frame12))
    ∧ (FFIOSession.decode_one_frame extLibs0 readySession (some "numpy") (.bytes frame12)).result
      = .ok (some (.numpy (np_reshape 2 2 frame12)))
    ∧ (FFIOSession.decode_one_frame extLibs0 readySession (some "Image") (.bytes frame12)).result
      = .ok (some (.image 2 2 frame12))
    ∧ (np_reshape 2 2 frame12).flatten.flatten = frame12 :=
  base64_path_reorder extLibs0 readySession 2 2 frame12 (by decide) (by decide)

/-- Counterexample to C8 as stated: after a failed initialization the
`width` and `height` attributes are never assigned (reading them raises
`AttributeError`), so they are not zero; the native handle is released. -/
theorem failed_init_width_unset :
    failedSession.width ≠ some 0
    ∧ failedSession.height ≠ some 0
    ∧ failedSession.width = none
    ∧ failedSession.height = none
    ∧ failedSession.handle = .freed := by
  decide

/-- C8 amended: when initialization does not report native state 1, the
constructor releases the provisionally allocated native handle and
leaves `width` and `height` unassigned (it does not set them to zero). -/
theorem failed_init_amended (target_url : String) (mode : Int) (hw : Bool)
    (shm_name : Option String) (shm_size shm_offset : Int)
    (cp : Option CCodecParams) (gw : CFfio) (hfail : gw.ffio_state ≠ 1) :
    (FFIOSession.init target_url mode hw shm_name shm_size shm_offset cp gw).width = none
    ∧ (FFIOSession.init target_url mode hw shm_name shm_size shm_offset cp gw).height = none
    ∧ (FFIOSession.init target_url mode hw shm_name shm_size shm_offset cp gw).handle
        = .freed := by
  unfold FFIOSession.init api_deleteFfio
  simp [hfail]

/-- Witness for the amended C8 at a concrete failed open. -/
theorem failed_init_amended_witness :
    (FFIOSession.init "rtmp://demo/stream" 0 false none 0 0 none gwFailed).width = none
    ∧ (FFIOSession.init "rtmp://demo/stream" 0 false none 0 0 none gwFailed).height = none
    ∧ (FFIOSession.init "rtmp://demo/stream" 0 false none 0 0 none gwFailed).handle
        = .freed :=
  failed_init_amended "rtmp://demo/stream" 0 false none 0 0 none gwFailed (by decide)

/-- Counterexample to C2 as stated: on a session whose native state is
not 1 or 2, `decode_one_frame` and `encode_one_frame` still invoke the
native gateway, and the outcome is an ordinary gateway result, not a
NotReady error. -/
theorem not_ready_invokes_gateway :
    ffio_state failedSession = false
    ∧ (FFIOSession.decode_one_frame extLibs0 failedSession (some "numpy")
        (.int 0)).gatewayCalled = true
    ∧ (FFIOSession.decode_one_frame extLibs0 failedSession (some "numpy")
        (.int 0)).result = .ok (some (.code 1))
    ∧ (FFIOSession.encode_one_frame failedSession (.bytes frame12) 1).gatewayCalled
        = true := by
  decide

/-- C2 amended: the wrapper performs no readiness check of its own —
`decode_one_frame` always invokes the native gateway, and
`encode_one_frame` invokes it for every `bytes` or `ndarray` input,
whatever the session state; state enforcement is left to the native
layer. -/
theorem no_readiness_check :
    (∀ (ext : ExtLibs) (s : FFIOSession) (image_format : Option String) (r : DecodeRet),
        (FFIOSession.decode_one_frame ext s image_format r).gatewayCalled = true)
    ∧ (∀ (s : FFIOSession) (data : List Nat) (c : Int),
        (FFIOSession.encode_one_frame s (.bytes data) c).gatewayCalled = true)
    ∧ (∀ (s : FFIOSession) (data : List Nat) (c : Int),
        (FFIOSession.encode_one_frame s (.ndarray data) c).gatewayCalled = true) := by
  refine ⟨fun ext s image_format r => ?_, fun s data c => ?_, fun s data c => ?_⟩
  · unfold FFIOSession.decode_one_frame api_decodeOneFrame
    rcases r with data | code
    · rcases image_format with _ | f
      · rfl
      · by_cases h1 : f = "numpy" <;> by_cases h2 : f = "Image" <;>
          by_cases h3 : f = "base64" <;>
          simp [h1, h2, h3] <;>
          rcases hh : (incNativeSeq s).height with _ | hv <;>
          rcases hw : (incNativeSeq s).width with _ | wv <;> simp
    · by_cases h5 : code = -5 <;> by_cases h4 : code = -4 <;> simp [h5, h4]
  · unfold FFIOSession.encode_one_frame encodeBytesBranch api_encodeOneFrame
    by_cases h : c = 0 <;> simp [h]
  · unfold FFIOSession.encode_one_frame encodeBytesBranch api_encodeOneFrame
    by_cases h : c = 0 <;> simp [h]

/-- Counterexample to C5 as stated: a `bytes` input whose length (5)
differs from `width*height*3` (12 for the 2x2 session) is still handed
to the native gateway — the wrapper has no length check — and the
returned boolean mirrors the gateway code rather than being forced to
false. -/
theorem encode_wrong_length_invokes_gateway :
    readySession.width = some 2
    ∧ readySession.height = some 2
    ∧ ([5, 6, 7, 8, 9] : List Nat).length ≠ 2 * 2 * 3
    ∧ (FFIOSession.encode_one_frame readySession (.bytes [5, 6, 7, 8, 9]) 1).gatewayCalled
        = true
    ∧ (FFIOSession.encode_one_frame readySession (.bytes [5, 6, 7, 8, 9]) 0).result
        = true := by
  decide

/-- C5 amended: `encode_one_frame` performs no layout or length
validation of its own — every `bytes` (or serialized `ndarray`) input,
whatever its length, is passed to the native gateway and the result is
determined solely by the gateway code; only inputs that are neither
`bytes` nor `ndarray` (a PIL image, or any other type) are rejected
with false without invoking the gateway. -/
theorem encode_no_length_check :
    (∀ (s : FFIOSession) (data : List Nat) (c : Int),
        (FFIOSession.encode_one_frame s (.bytes data) c).gatewayCalled = true
        ∧ (FFIOSession.encode_one_frame s (.bytes data) c).result = decide (c = 0))
    ∧ (∀ (s : FFIOSession) (data : List Nat) (c : Int),
        (FFIOSession.encode_one_frame s (.ndarray data) c).gatewayCalled = true
        ∧ (FFIOSession.encode_one_frame s (.ndarray data) c).result = decide (c = 0))
    ∧ (∀ (s : FFIOSession) (c : Int),
        (FFIOSession.encode_one_frame s .image c).result = false
        ∧ (FFIOSession.encode_one_frame s .image c).gatewayCalled = false)
    ∧ (∀ (s : FFIOSession) (c : Int),
        (FFIOSession.encode_one_frame s .other c).result = false
        ∧ (FFIOSession.encode_one_frame s .other c).gatewayCalled = false) := by
  refine ⟨fun s data c => ?_, fun s data c => ?_, fun s c => ⟨rfl, rfl⟩,
    fun s c => ⟨rfl, rfl⟩⟩ <;>
  · unfold FFIOSession.encode_one_frame encodeBytesBranch api_encodeOneFrame
    by_cases h : c = 0 <;> simp [h]

/-- C6 is a code bug: `release_memory` unconditionally calls the native
finalize and delete again on the second invocation, freeing the
already-freed handle — the first call does not double free, the second
does — even though the Python-level counter it re-zeroes is unchanged
between the two calls. -/
theorem release_memory_double_free :
    (FFIOSession.release_memory readySession).double_free = false
    ∧ (FFIOSession.release_memory readySession).handle = .freed
    ∧ (FFIOSession.release_memory
        (FFIOSession.release_memory readySession)).double_free = true
    ∧ (FFIOSession.release_memory
        (FFIOSession.release_memory readySession)).frame_seq_py
      = (FFIOSession.release_memory readySession).frame_seq_py := by
  decide

/-- Counterexample to C1 as stated: on a ready shared-memory session
with both counters equal (0), one successful `decode_one_frame_to_shm`
(and likewise `encode_one_frame_from_shm`) advances the gateway counter
but leaves `frame_seq_py` untouched, so the two counters differ. -/
theorem frame_seq_shm_divergence :
    ffio_state shmSession = true
    ∧ shmSession.shm_enabled = true
    ∧ shmSession.frame_seq_py = frame_seq_c shmSession
    ∧ (FFIOSession.decode_one_frame_to_shm shmSession 0 true).1 = true
    ∧ (FFIOSession.decode_one_frame_to_shm shmSession 0 true).2.frame_seq_py = 0
    ∧ frame_seq_c (FFIOSession.decode_one_frame_to_shm shmSession 0 true).2 = 1
    ∧ (FFIOSession.decode_one_frame_to_shm shmSession 0 true).2.frame_seq_py
        ≠ frame_seq_c (FFIOSession.decode_one_frame_to_shm shmSession 0 true).2
    ∧ (FFIOSession.encode_one_frame_from_shm shmSession 0 true).2.frame_seq_py
        ≠ frame_seq_c (FFIOSession.encode_one_frame_from_shm shmSession 0 true).2 := by
  decide

/-- The session each branch of a successful `decode_one_frame` keeps:
counters advance by one regardless of `image_format`. -/
theorem decode_one_frame_counts (ext : ExtLibs) (s : FFIOSession)
    (image_format : Option String) (d : List Nat) :
    (FFIOSession.decode_one_frame ext s image_format (.bytes d)).session.frame_seq_py
        = s.frame_seq_py + 1
    ∧ frame_seq_c (FFIOSession.decode_one_frame ext s image_format (.bytes d)).session
        = frame_seq_c s + 1 := by
  unfold FFIOSession.decode_one_frame api_decodeOneFrame
  rcases image_format with _ | f
  · simp [incNativeSeq, frame_seq_c]
  · by_cases h1 : f = "numpy" <;> by_cases h2 : f = "Image" <;>
      by_cases h3 : f = "base64" <;>
      simp [h1, h2, h3, incNativeSeq, frame_seq_c] <;>
      rcases hh : (incNativeSeq s).height with _ | hv <;>
      rcases hw : (incNativeSeq s).width with _ | wv <;>
      simp_all [incNativeSeq, frame_seq_c]

/-- A failed or sentinel `decode_one_frame` leaves both counters. -/
theorem decode_one_frame_keeps (ext : ExtLibs) (s : FFIOSession)
    (image_format : Option String) (c : Int) :
    (FFIOSession.decode_one_frame ext s image_format (.int c)).session = s := by
  unfold FFIOSession.decode_one_frame api_decodeOneFrame
  by_cases h5 : c = -5 <;> by_cases h4 : c = -4 <;> simp [h5, h4]

/-- Counters of the iterated decode: both advance by the number of
successfully decoded frames. -/
theorem decode_iter_counts (ext : ExtLibs) (image_format : Option String)
    (frames : List (List Nat)) (s : FFIOSession) :
    (decode_iter ext image_format frames s).frame_seq_py
        = s.frame_seq_py + (frames.length : Int)
    ∧ frame_seq_c (decode_iter ext image_format frames s)
        = frame_seq_c s + (frames.length : Int) := by
  induction frames generalizing s with
  | nil => simp [decode_iter]
  | cons d rest ih =>
    have hstep := decode_one_frame_counts ext s image_format d
    have htail :=
      ih (FFIOSession.decode_one_frame ext s image_format (.bytes d)).session
    simp only [decode_iter, List.foldl_cons] at htail ⊢
    rw [htail.1, htail.2, hstep.1, hstep.2]
    constructor <;> simp <;> omega

/-- Counters of the iterated encode: both advance by the number of
successfully encoded frames. -/
theorem encode_iter_counts (frames : List (List Nat)) (s : FFIOSession) :
    (encode_iter frames s).frame_seq_py = s.frame_seq_py + (frames.length : Int)
    ∧ frame_seq_c (encode_iter frames s) = frame_seq_c s + (frames.length : Int) := by
  induction frames generalizing s with
  | nil => simp [encode_iter]
  | cons d rest ih =>
    have htail := ih (FFIOSession.encode_one_frame s (.bytes d) 0).session
    simp only [encode_iter, List.foldl_cons] at htail ⊢
    rw [htail.1, htail.2]
    unfold FFIOSession.encode_one_frame encodeBytesBranch api_encodeOneFrame
    constructor <;> simp [incNativeSeq, frame_seq_c] <;> omega

/-- C1 amended: `decode_one_frame` and `encode_one_frame` keep the
difference between the gateway counter and `frame_seq_py` invariant (so
the two stay equal whenever they start equal), and after N consecutive
successful calls both counters advance by exactly N — from a fresh
ready session both equal N.  The shared-memory variants, however, leave
`frame_seq_py` unchanged while the gateway counter advances, so the
equality does not extend to them. -/
theorem frame_counters_amended :
    (∀ (ext : ExtLibs) (s : FFIOSession) (image_format : Option String) (r : DecodeRet),
        frame_seq_c (FFIOSession.decode_one_frame ext s image_format r).session
            - (FFIOSession.decode_one_frame ext s image_format r).session.frame_seq_py
          = frame_seq_c s - s.frame_seq_py)
    ∧ (∀ (s : FFIOSession) (rgb_image : RgbInput) (c : Int),
        frame_seq_c (FFIOSession.encode_one_frame s rgb_image c).session
            - (FFIOSession.encode_one_frame s rgb_image c).session.frame_seq_py
          = frame_seq_c s - s.frame_seq_py)
    ∧ (∀ (ext : ExtLibs) (image_format : Option String) (frames : List (List Nat))
          (s : FFIOSession),
        (decode_iter ext image_format frames s).frame_seq_py
            = s.frame_seq_py + (frames.length : Int)
        ∧ frame_seq_c (decode_iter ext image_format frames s)
            = frame_seq_c s + (frames.length : Int))
    ∧ (∀ (frames : List (List Nat)) (s : FFIOSession),
        (encode_iter frames s).frame_seq_py = s.frame_seq_py + (frames.length : Int)
        ∧ frame_seq_c (encode_iter frames s) = frame_seq_c s + (frames.length : Int))
    ∧ (∀ (frames : List (List Nat)),
        (decode_iter extLibs0 (some "numpy") frames readySession).frame_seq_py
            = (frames.length : Int)
        ∧ frame_seq_c (decode_iter extLibs0 (some "numpy") frames readySession)
            = (frames.length : Int))
    ∧ (∀ (s : FFIOSession) (offset : Int),
        (FFIOSession.decode_one_frame_to_shm s offset true).2.frame_seq_py
            = s.frame_seq_py
        ∧ frame_seq_c (FFIOSession.decode_one_frame_to_shm s offset true).2
            = frame_seq_c s + 1)
    ∧ (∀ (s : FFIOSession) (offset : Int),
        (FFIOSession.encode_one_frame_from_shm s offset true).2.frame_seq_py
            = s.frame_seq_py
        ∧ frame_seq_c (FFIOSession.encode_one_frame_from_shm s offset true).2
            = frame_seq_c s + 1) := by
  refine ⟨fun ext s image_format r => ?_, fun s rgb_image c => ?_,
    fun ext image_format frames s => decode_iter_counts ext image_format frames s,
    fun frames s => encode_iter_counts frames s,
    fun frames => ?_, fun s offset => ?_, fun s offset => ?_⟩
  · rcases r with d | c
    · have h := decode_one_frame_counts ext s image_format d
      rw [h.1, h.2]; ring
    · rw [decode_one_frame_keeps ext s image_format c]
  · rcases rgb_image with d | d | _ | _ <;>
      · unfold FFIOSession.encode_one_frame encodeBytesBranch api_encodeOneFrame
        by_cases h : c = 0 <;> simp [h, incNativeSeq, frame_seq_c]
  · have h := decode_iter_counts extLibs0 (some "numpy") frames readySession
    have hpy : readySession.frame_seq_py = 0 := by decide
    have hc : frame_seq_c readySession = 0 := by decide
    rw [h.1, h.2, hpy, hc]
    constructor <;> ring
  · unfold FFIOSession.decode_one_frame_to_shm api_decodeOneFrameToShm
    simp [incNativeSeq, frame_seq_c]
  · unfold FFIOSession.encode_one_frame_from_shm api_encodeOneFrameFromShm
    simp [incNativeSeq, frame_seq_c]

/-- Witness for C4 at a failing gateway code. -/
theorem encode_counter_and_result_witness :
    (FFIOSession.encode_one_frame readySession (.bytes frame12) 1).result = decide ((1 : Int) = 0)
    ∧ (FFIOSession.encode_one_frame readySession (.bytes frame12) 1).session.frame_seq_py
        = readySession.frame_seq_py + (if (1 : Int) = 0 then 1 else 0)
    ∧ (FFIOSession.encode_one_frame readySession (.bytes frame12) 1).session = readySession :=
  ⟨(encode_counter_and_result readySession frame12 1).1,
    (encode_counter_and_result readySession frame12 1).2.1,
    (encode_counter_and_result readySession frame12 1).2.2 (by decide)⟩
